import Mathlib

/-!
Shallow embedding of the Cold-Call-Lead-Manager backend (src/backend/main.go).

The durable store is SQLite; we model the three tables the claims touch
(`searches`, `leads`, `crm_leads`) as lists of rows, and each handler /
background function as a pure function on that state.  JSON decoding of the
scraper output (encoding/json's streaming `Decoder.Decode` into a
`ScrapedLead` struct) is modelled over an inductive `Json` value type: the
decoder yields the successive JSON values of the file, and unmarshalling a
value into the struct follows Go's rules (object: known keys set the fields,
unknown keys ignored, `null` leaves the field; any non-object, non-null
value is a type error).
-/

namespace ColdCall

/-- A row of the `searches` table.  `created_at` is not modelled (no claim
mentions it).  `leads_found` has SQLite default 0. -/
structure SearchRow where
  id : String
  user_id : Int
  keyword : String
  status : String
  leads_found : Nat
deriving Repr, DecidableEq

/-- A row of the `leads` table.  The importer's INSERT never writes
`page_speed`, so it is `Option` (NULL when absent); the text columns are
always written as (possibly empty) strings by the importer. -/
structure LeadRow where
  id : String
  search_id : String
  company_name : String
  phone : String
  website : String
  email : String
  page_speed : Option Int
deriving Repr, DecidableEq

/-- A row of the `crm_leads` table.  Primary key (user_id, lead_id).
`notes` and `callback_date` are nullable; `times_called` has default 0.
`callback_date` timestamps are abstracted to `Int`. -/
structure CrmRow where
  user_id : Int
  lead_id : String
  column_id : String
  notes : Option String
  times_called : Int
  callback_date : Option Int
  company_name : String
  phone : String
  website : String
  email : String
  page_speed : Int
deriving Repr, DecidableEq

/-- The durable store. -/
structure DB where
  searches : List SearchRow
  leads : List LeadRow
  crm_leads : List CrmRow
deriving Repr, DecidableEq

/-- The `Search` model struct returned to the client (JSON body of the
Accepted response).  `CreatedAt` is not modelled. -/
structure Search where
  ID : String
  UserID : Int
  Keyword : String
  Status : String
  LeadsFound : Nat
deriving Repr, DecidableEq

/-- The `Lead` model struct as serialized to the client. -/
structure Lead where
  ID : String
  SearchID : String
  CompanyName : String
  Phone : String
  Website : String
  Email : String
  PageSpeed : Int
deriving Repr, DecidableEq

/-- The `CrmLead` model struct (CRM board entry view / update payload).
`CallBackDate` is `*time.Time`, hence `Option`. -/
structure CrmLead where
  ID : String
  CompanyName : String
  Phone : String
  Website : String
  Email : String
  PageSpeed : Int
  ColumnID : String
  Notes : String
  TimesCalled : Int
  CallBackDate : Option Int
deriving Repr, DecidableEq

/-- The `ScrapedLead` struct the JSON decoder fills
(tags: title, phone, web_site, emails). -/
structure ScrapedLead where
  Title : String := ""
  Phone : String := ""
  Website : String := ""
  Emails : List String := []
deriving Repr, DecidableEq

/-- Query `SELECT ... FROM searches WHERE id = ?` (first matching row). -/
def findSearch (l : List SearchRow) (sid : String) : Option SearchRow :=
  l.find? (fun s => s.id == sid)

/-- Status of the search row with the given id, if any. -/
def statusOf (dbSt : DB) (sid : String) : Option String :=
  (findSearch dbSt.searches sid).map (fun s => s.status)

/-- The `leads_found` of the search row with the given id, if any. -/
def leadsFoundOf (dbSt : DB) (sid : String) : Option Nat :=
  (findSearch dbSt.searches sid).map (fun s => s.leads_found)

/-- The `leads` rows referencing a search job. -/
def leadsFor (dbSt : DB) (sid : String) : List LeadRow :=
  dbSt.leads.filter (fun l => l.search_id == sid)

/-- Number of `leads` rows referencing a search job. -/
def countLeadsFor (dbSt : DB) (sid : String) : Nat :=
  (leadsFor dbSt sid).length

/-- Function `updateSearchStatus` (main.go:611): `UPDATE searches SET status = ?
WHERE id = ?`; a failure of the statement is only logged, and the statement
itself cannot violate a constraint, so it is modelled as always applying. -/
def updateSearchStatus (dbSt : DB) (sid status : String) : DB :=
  { dbSt with
    searches := dbSt.searches.map (fun s =>
      if s.id == sid then { s with status := status } else s) }

/-- A JSON value, as read by encoding/json.  Numbers are abstracted to
`Int` (no claim depends on number contents). -/
inductive Json where
  | null : Json
  | bool : Bool → Json
  | num : Int → Json
  | str : String → Json
  | arr : List Json → Json
  | obj : List (String × Json) → Json
deriving Repr

/-- Go unmarshalling of a JSON array element into a `string` slot: a string
sets it, `null` leaves the zero value `""`, anything else is a type error. -/
def decodeEmailElem : Json → Except String String
  | .str s => .ok s
  | .null => .ok ""
  | _ => .error "json: cannot unmarshal value into Go value of type string"

/-- One key/value pair of a JSON object applied to a `ScrapedLead` under
Go's struct-unmarshal rules: the tagged keys title/phone/web_site/emails set
their field (later duplicates win), `null` leaves the field, a value of the
wrong shape is a type error, unknown keys are ignored.  (Go additionally
matches keys case-insensitively; the embedding uses the exact tag names,
which is what the scraper emits and what every claim exercises.) -/
def setField (sl : ScrapedLead) : String × Json → Except String ScrapedLead
  | ("title", v) =>
    match v with
    | .str s => .ok { sl with Title := s }
    | .null => .ok sl
    | _ => .error "json: cannot unmarshal value into field title"
  | ("phone", v) =>
    match v with
    | .str s => .ok { sl with Phone := s }
    | .null => .ok sl
    | _ => .error "json: cannot unmarshal value into field phone"
  | ("web_site", v) =>
    match v with
    | .str s => .ok { sl with Website := s }
    | .null => .ok sl
    | _ => .error "json: cannot unmarshal value into field web_site"
  | ("emails", v) =>
    match v with
    | .arr es => (es.mapM decodeEmailElem).map (fun l => { sl with Emails := l })
    | .null => .ok sl
    | _ => .error "json: cannot unmarshal value into field emails"
  | (_, _) => .ok sl

/-- One `decoder.Decode(&lead)` step for one JSON value: only an object (or `null`,
which leaves the struct zeroed) unmarshals into the `ScrapedLead` struct;
a JSON array, string, number or bool is a type error. -/
def unmarshalScrapedLead : Json → Except String ScrapedLead
  | .obj kvs => kvs.foldlM setField {}
  | .null => .ok {}
  | _ => .error "json: cannot unmarshal value into Go value of type main.ScrapedLead"

/-- The decode loop of `processScraperOutput` (main.go:550-560): repeatedly
`Decode` the next JSON value in the file until EOF, failing the whole read
on the first error. -/
def decodeStream : List Json → Except String (List ScrapedLead)
  | [] => .ok []
  | j :: rest => do
    let sl ← unmarshalScrapedLead j
    let sls ← decodeStream rest
    .ok (sl :: sls)

/-- The scraper output file as seen by `processScraperOutput`:
either `os.Open` fails, or the file tokenizes into a sequence of JSON
values, possibly followed by trailing garbage that is not valid JSON
(`malformedTail = true` makes the decoder error after the listed values). -/
inductive ScraperFile where
  | unreadable : ScraperFile
  | stream (vals : List Json) (malformedTail : Bool) : ScraperFile

/-- Reading and decoding the whole output file: the decode loop over its
JSON values, an open failure or a JSON syntax error being errors. -/
def readScraperFile : ScraperFile → Except String (List ScrapedLead)
  | .unreadable => .error "open failed"
  | .stream vals malformedTail => do
    let sls ← decodeStream vals
    if malformedTail then .error "invalid character" else .ok sls

/-- The lead row built for one scraped lead (main.go:580-586): fresh id,
first email of the list or `""`, `page_speed` not inserted (NULL). -/
def mkLeadRow (leadID sid : String) (sl : ScrapedLead) : LeadRow :=
  { id := leadID, search_id := sid, company_name := sl.Title,
    phone := sl.Phone, website := sl.Website,
    email := sl.Emails.headD "", page_speed := none }

/-- The insert loop inside the import transaction: each scraped lead is
inserted with the next fresh uuid; an insert fails (primary-key violation)
if the id already exists, and any failure aborts the whole transaction
(`none`).  Running out of fresh ids stands for an insert failure (it cannot
happen when enough distinct uuids are drawn). -/
def insertLeadsTx (tbl : List LeadRow) (sid : String) :
    List ScrapedLead → List String → Option (List LeadRow)
  | [], _ => some tbl
  | _ :: _, [] => none
  | sl :: rest, fid :: fids =>
    if tbl.any (fun l => l.id == fid) then none
    else insertLeadsTx (tbl ++ [mkLeadRow fid sid sl]) sid rest fids

/-- The committed state of a fully successful import (main.go:595-606):
the new leads table together with the job row's `UPDATE searches SET
status = 'Completed', leads_found = ?`, all applied atomically by the
commit. -/
def completeSearch (dbSt : DB) (sid : String) (n : Nat) (tbl : List LeadRow) : DB :=
  { dbSt with
    leads := tbl,
    searches := dbSt.searches.map (fun s =>
      if s.id == sid then { s with status := "Completed", leads_found := n }
      else s) }

/-- The transactional phase of the import (main.go:564-606): all row
inserts, then the job's Completed update, then the commit.  An insert
failure or a commit failure rolls everything back and marks the job
Failed. -/
def importLeads (dbSt : DB) (sid : String) (sls : List ScrapedLead)
    (freshIds : List String) (commitOk : Bool) : DB :=
  match insertLeadsTx dbSt.leads sid sls freshIds with
  | none => updateSearchStatus dbSt sid "Failed"
  | some tbl =>
    if commitOk then completeSearch dbSt sid sls.length tbl
    else updateSearchStatus dbSt sid "Failed"

/-- Function `processScraperOutput` (main.go:539-609).  `freshIds` are the uuids
drawn for the lead rows, `commitOk` whether the final `tx.Commit`
succeeds.  Read/decode failure marks the job Failed before any insert;
otherwise the transactional import runs. -/
def processScraperOutput (dbSt : DB) (sid : String) (file : ScraperFile)
    (freshIds : List String) (commitOk : Bool) : DB :=
  match readScraperFile file with
  | .error _ => updateSearchStatus dbSt sid "Failed"
  | .ok sls => importLeads dbSt sid sls freshIds commitOk

/-- The outcome of the scraper invocation step of `runScraper`
(main.go:504-536): the temp input file cannot be created or written, the
external command errors, or the command succeeds leaving an output file. -/
inductive ScraperRun where
  | tmpFileError : ScraperRun
  | cmdError : ScraperRun
  | output (f : ScraperFile) : ScraperRun

/-- Function `runScraper` (main.go:504-536): every failure before the import marks
the job Failed and stops; on success the import runs. -/
def runScraper (dbSt : DB) (sid : String) (run : ScraperRun)
    (freshIds : List String) (commitOk : Bool) : DB :=
  match run with
  | .tmpFileError => updateSearchStatus dbSt sid "Failed"
  | .cmdError => updateSearchStatus dbSt sid "Failed"
  | .output f => processScraperOutput dbSt sid f freshIds commitOk

/-- The `newSearch` record built by `startSearchHandler` (main.go:289-295):
status "In Progress", `LeadsFound` its zero value 0. -/
def newSearchRecord (sid : String) (userID : Int) (keyword : String) : Search :=
  { ID := sid, UserID := userID, Keyword := keyword,
    Status := "In Progress", LeadsFound := 0 }

/-- The `searches` row written by the handler's INSERT (main.go:297):
id, user_id, keyword and status from `newSearch`, `leads_found` its
column default 0. -/
def insertedSearchRow (sid : String) (userID : Int) (keyword : String) : SearchRow :=
  { id := sid, user_id := userID, keyword := keyword,
    status := "In Progress", leads_found := 0 }

/-- Handler `startSearchHandler` (main.go:278-305), after authentication: a missing
or empty keyword fails binding (`InvalidInput`); the INSERT fails if the
fresh uuid collides with an existing primary key (500); otherwise the row
is inserted with status "In Progress" and default leads_found 0, and the
`Search` record is returned with Accepted semantics (the scrape itself runs
on a detached goroutine, modelled separately by `runScraper`). -/
def startSearch (dbSt : DB) (userID : Int) (keyword sid : String) :
    Except String (DB × Search) :=
  if keyword == "" then .error "InvalidInput"
  else if dbSt.searches.any (fun s => s.id == sid) then
    .error "Failed to create search job"
  else
    .ok ({ dbSt with
            searches := dbSt.searches ++ [insertedSearchRow sid userID keyword] },
         newSearchRecord sid userID keyword)

/-- One search job's whole lifecycle as executed by the backend: the
handler inserts the row and the detached worker finishes it. -/
def searchLifecycle (db0 : DB) (userID : Int) (keyword sid : String)
    (run : ScraperRun) (freshIds : List String) (commitOk : Bool) : DB :=
  match startSearch db0 userID keyword sid with
  | .error _ => db0
  | .ok (db1, _) => runScraper db1 sid run freshIds commitOk

/-- The view `getLeadsForSearchHandler` builds of one lead row (main.go:346-359):
NULL text columns read as `""`, NULL page_speed as 0. -/
def leadRowToView (l : LeadRow) : Lead :=
  { ID := l.id, SearchID := l.search_id, CompanyName := l.company_name,
    Phone := l.phone, Website := l.website, Email := l.email,
    PageSpeed := (l.page_speed.getD 0) }

/-- Handler `getLeadsForSearchHandler` (main.go:328-362): look up the owning user
of the search; if the row is missing or the owner is not the caller,
respond 403 "Access denied" with no lead data; otherwise return the
job's leads. -/
def getLeadsForSearch (dbSt : DB) (userID : Int) (sid : String) :
    Except String (List Lead) :=
  match findSearch dbSt.searches sid with
  | none => .error "Access denied"
  | some s =>
    if s.user_id == userID then .ok ((leadsFor dbSt sid).map leadRowToView)
    else .error "Access denied"

/-- The `crm_leads` row created by the bulk-add INSERT (main.go:440-443):
column hardwired to 'tobe-called', notes and callback_date NULL,
times_called its default 0, contact snapshot copied from the payload. -/
def mkCrmRow (userID : Int) (l : Lead) : CrmRow :=
  { user_id := userID, lead_id := l.ID, column_id := "tobe-called",
    notes := none, times_called := 0, callback_date := none,
    company_name := l.CompanyName, phone := l.Phone, website := l.Website,
    email := l.Email, page_speed := l.PageSpeed }

/-- One `INSERT OR IGNORE` of the bulk-add loop: a row whose
(user_id, lead_id) key already exists is left untouched. -/
def crmAddStep (userID : Int) (tbl : List CrmRow) (l : Lead) : List CrmRow :=
  if tbl.any (fun r => r.user_id == userID && r.lead_id == l.ID) then tbl
  else tbl ++ [mkCrmRow userID l]

/-- Handler `addLeadsToCrmHandler` (main.go:425-460): insert each posted lead with
conflict-ignore semantics inside one transaction. -/
def addLeadsToCrm (dbSt : DB) (userID : Int) (leadsToAdd : List Lead) : DB :=
  { dbSt with crm_leads := leadsToAdd.foldl (crmAddStep userID) dbSt.crm_leads }

/-- Handler `updateCrmStateHandler` (main.go:462-479): `UPDATE crm_leads SET
column_id = ? WHERE user_id = ? AND lead_id = ?` — the target column id
string is written as given, with no validation against the column set. -/
def updateCrmState (dbSt : DB) (userID : Int) (leadID newColumnID : String) : DB :=
  { dbSt with
    crm_leads := dbSt.crm_leads.map (fun r =>
      if r.user_id == userID && r.lead_id == leadID then
        { r with column_id := newColumnID }
      else r) }

/-- The column assignments of the field-update statement: exactly
`notes`, `times_called` and `callback_date` are written, from the request
payload. -/
def crmFieldPatch (p : CrmLead) (r : CrmRow) : CrmRow :=
  { r with notes := some p.Notes, times_called := p.TimesCalled,
           callback_date := p.CallBackDate }

/-- Handler `updateCrmLeadHandler` (main.go:481-501): `UPDATE crm_leads SET
notes = ?, times_called = ?, callback_date = ? WHERE user_id = ? AND
lead_id = ?`; only those three columns are written. -/
def updateCrmLead (dbSt : DB) (userID : Int) (leadID : String) (p : CrmLead) : DB :=
  { dbSt with
    crm_leads := dbSt.crm_leads.map (fun r =>
      if r.user_id == userID && r.lead_id == leadID then crmFieldPatch p r
      else r) }

/-- The view `getCrmHandler` builds of one row (main.go:379-402): NULL text columns
read as `""`, NULL integers as 0, NULL callback_date as absent. -/
def crmRowToView (r : CrmRow) : CrmLead :=
  { ID := r.lead_id, CompanyName := r.company_name, Phone := r.phone,
    Website := r.website, Email := r.email, PageSpeed := r.page_speed,
    ColumnID := r.column_id, Notes := r.notes.getD "",
    TimesCalled := r.times_called, CallBackDate := r.callback_date }

/-- The caller's `crm_leads` rows, in table order (the board query
`WHERE user_id = ?`). -/
def getCrmRows (dbSt : DB) (userID : Int) : List CrmRow :=
  dbSt.crm_leads.filter (fun r => r.user_id == userID)

/-- The board's `leads` map entry for one lead id: the handler assigns
`crmLeads[cl.ID] = cl` per row, so the last of the caller's rows with that
lead id wins. -/
def getCrmLeadById (dbSt : DB) (userID : Int) (leadID : String) : Option CrmLead :=
  ((getCrmRows dbSt userID).reverse.find? (fun r => r.lead_id == leadID)).map crmRowToView

/-- The board's column groupings (main.go:405-420): a row's id is listed
under its column when that column is one of the two fixed board columns. -/
def getCrmColumnLeadIds (dbSt : DB) (userID : Int) (columnID : String) : List String :=
  ((getCrmRows dbSt userID).filter (fun r => r.column_id == columnID)).map
    (fun r => r.lead_id)

/-- The scraper-output JSON object of the Scenario-B lead
`{"title":"Acme","phone":"555","web_site":"acme.com","emails":["a@acme.com"]}`. -/
def acmeJson : Json :=
  .obj [("title", .str "Acme"), ("phone", .str "555"),
        ("web_site", .str "acme.com"), ("emails", .arr [.str "a@acme.com"])]

/-- The `ScrapedLead` struct the Scenario-B object decodes to. -/
def acmeScrapedLead : ScrapedLead :=
  { Title := "Acme", Phone := "555", Website := "acme.com",
    Emails := ["a@acme.com"] }

/-- The `leads` row the importer writes for the Scenario-B lead: first
email of the list, `page_speed` left NULL. -/
def acmeLeadRow (fid sid : String) : LeadRow :=
  { id := fid, search_id := sid, company_name := "Acme", phone := "555",
    website := "acme.com", email := "a@acme.com", page_speed := none }

/-- A store holding one freshly created search job, used to instantiate the
general theorems. -/
def dbOneSearch : DB :=
  { searches := [insertedSearchRow "s1" 1 "plumbers in london"],
    leads := [], crm_leads := [] }

/-- A store holding one search job owned by user 2, used to instantiate
the general theorems. -/
def dbUserTwoSearch : DB :=
  { searches := [insertedSearchRow "s1" 2 "k"], leads := [], crm_leads := [] }

/-- A CRM entry of user 1 as created by bulk-add, used to instantiate the
general theorems. -/
def crmRowEx : CrmRow :=
  { user_id := 1, lead_id := "L1", column_id := "tobe-called",
    notes := none, times_called := 0, callback_date := none,
    company_name := "Acme", phone := "555", website := "acme.com",
    email := "a@acme.com", page_speed := 0 }

/-- A store holding one CRM entry of user 1, used to instantiate the
general theorems. -/
def dbOneCrm : DB :=
  { searches := [], leads := [], crm_leads := [crmRowEx] }

/-- A CRM field-update payload used to instantiate the general theorems. -/
def crmPayloadEx : CrmLead :=
  { ID := "L1", CompanyName := "", Phone := "", Website := "", Email := "",
    PageSpeed := 0, ColumnID := "", Notes := "call back tuesday",
    TimesCalled := 2, CallBackDate := some 99 }

/-! ### Helper lemmas -/

theorem find?_map_invariant {α : Type} (f : α → α) (p : α → Bool)
    (hf : ∀ x, p (f x) = p x) :
    ∀ l : List α, (l.map f).find? p = (l.find? p).map f := by
  intro l
  induction l with
  | nil => rfl
  | cons a l ih =>
    by_cases h : p a = true
    · rw [List.map_cons, List.find?_cons_of_pos _ (by rw [hf]; exact h),
          List.find?_cons_of_pos _ h]
      rfl
    · rw [List.map_cons, List.find?_cons_of_neg _ (by rw [hf]; exact h),
          List.find?_cons_of_neg _ h, ih]

theorem find?_append_of_forall_false {α : Type} (p : α → Bool) (l₁ l₂ : List α)
    (h : ∀ x ∈ l₁, p x = false) : (l₁ ++ l₂).find? p = l₂.find? p := by
  rw [List.find?_append]
  have h1 : l₁.find? p = none := by
    rw [List.find?_eq_none]
    intro x hx
    simp [h x hx]
  rw [h1, Option.none_or]

/-- Mapping a row-local update that preserves `id` over the searches table
commutes with the primary-key lookup. -/
theorem findSearch_map_update (l : List SearchRow) (sid : String)
    (g : SearchRow → SearchRow) (hg : ∀ s, (g s).id = s.id) :
    findSearch (l.map (fun s => if s.id == sid then g s else s)) sid
      = (findSearch l sid).map (fun s => if s.id == sid then g s else s) := by
  apply find?_map_invariant
  intro s
  by_cases h : (s.id == sid) = true
  · simp [h, hg]
  · simp [h]

/-- Effect of `updateSearchStatus` on the job's own row and on the other
tables, when the row exists. -/
theorem updateSearchStatus_facts (dbSt : DB) (sid st : String) (r : SearchRow)
    (h : findSearch dbSt.searches sid = some r) :
    statusOf (updateSearchStatus dbSt sid st) sid = some st ∧
    leadsFoundOf (updateSearchStatus dbSt sid st) sid = some r.leads_found ∧
    (updateSearchStatus dbSt sid st).leads = dbSt.leads ∧
    (updateSearchStatus dbSt sid st).crm_leads = dbSt.crm_leads := by
  have h' : List.find? (fun s => s.id == sid) dbSt.searches = some r := h
  have hid : (r.id == sid) = true :=
    List.find?_some (p := fun (s : SearchRow) => s.id == sid) h'
  have hmap := findSearch_map_update dbSt.searches sid
      (fun s => { s with status := st }) (fun _ => rfl)
  have heq : r.id = sid := by simpa using hid
  refine ⟨?_, ?_, rfl, rfl⟩
  · simp only [statusOf, updateSearchStatus]
    rw [hmap, h]
    simp [heq]
  · simp only [leadsFoundOf, updateSearchStatus]
    rw [hmap, h]
    simp [heq]

/-- A successful insert phase appends exactly one row per scraped lead,
each referencing the job being imported. -/
theorem insertLeadsTx_spec (sid : String) :
    ∀ (sls : List ScrapedLead) (tbl tbl' : List LeadRow) (fids : List String),
      insertLeadsTx tbl sid sls fids = some tbl' →
      ∃ new : List LeadRow, tbl' = tbl ++ new ∧ new.length = sls.length ∧
        ∀ l ∈ new, l.search_id = sid := by
  intro sls
  induction sls with
  | nil =>
    intro tbl tbl' fids h
    refine ⟨[], ?_, rfl, fun l hl => absurd hl (List.not_mem_nil l)⟩
    have heq : tbl = tbl' := by
      unfold insertLeadsTx at h
      exact Option.some.inj h
    simp [heq]
  | cons sl rest ih =>
    intro tbl tbl' fids h
    cases fids with
    | nil =>
      exact absurd h (by unfold insertLeadsTx; simp)
    | cons fid fids =>
      unfold insertLeadsTx at h
      by_cases hc : tbl.any (fun l => l.id == fid) = true
      · rw [if_pos hc] at h
        exact absurd h (by simp)
      · rw [if_neg hc] at h
        obtain ⟨new, hnew, hlen, hmem⟩ := ih (tbl ++ [mkLeadRow fid sid sl]) tbl' fids h
        refine ⟨mkLeadRow fid sid sl :: new, ?_, by simp [hlen], ?_⟩
        · rw [hnew, List.append_assoc]
          rfl
        · intro l hl
          rcases List.mem_cons.mp hl with rfl | hl
          · rfl
          · exact hmem l hl

/-- The Completed update rewrites the job row's status and count, leaving
its key in place. -/
theorem findSearch_completeSearch (dbSt : DB) (sid : String) (n : Nat)
    (tbl : List LeadRow) (r : SearchRow)
    (h : findSearch dbSt.searches sid = some r) :
    findSearch (completeSearch dbSt sid n tbl).searches sid
      = some { r with status := "Completed", leads_found := n } := by
  have h' : List.find? (fun s => s.id == sid) dbSt.searches = some r := h
  have hid : (r.id == sid) = true :=
    List.find?_some (p := fun (s : SearchRow) => s.id == sid) h'
  have heq : r.id = sid := by simpa using hid
  show findSearch (dbSt.searches.map (fun s =>
    if s.id == sid then { s with status := "Completed", leads_found := n }
    else s)) sid = _
  rw [findSearch_map_update dbSt.searches sid
      (fun s => { s with status := "Completed", leads_found := n })
      (fun _ => rfl), h]
  simp [heq]

/-- In any state whose job row exists with `leads_found` 0 and no lead
rows, marking the job Failed yields a state satisfying both terminal-state
conjuncts: the status is not Completed, and the Failed row has zero lead
rows and zero leads_found. -/
theorem updateFailed_invariant (dbSt : DB) (sid : String) (r : SearchRow)
    (hfind : findSearch dbSt.searches sid = some r) (hlf : r.leads_found = 0)
    (hcnt : countLeadsFor dbSt sid = 0) :
    (statusOf (updateSearchStatus dbSt sid "Failed") sid = some "Completed" →
      leadsFoundOf (updateSearchStatus dbSt sid "Failed") sid
        = some (countLeadsFor (updateSearchStatus dbSt sid "Failed") sid)) ∧
    (statusOf (updateSearchStatus dbSt sid "Failed") sid = some "Failed" →
      countLeadsFor (updateSearchStatus dbSt sid "Failed") sid = 0 ∧
      leadsFoundOf (updateSearchStatus dbSt sid "Failed") sid = some 0) := by
  obtain ⟨h1, h2, h3, _⟩ := updateSearchStatus_facts dbSt sid "Failed" r hfind
  have hc : countLeadsFor (updateSearchStatus dbSt sid "Failed") sid = 0 := by
    unfold countLeadsFor leadsFor
    rw [h3]
    exact hcnt
  constructor
  · intro hcomp
    rw [h1] at hcomp
    exact absurd hcomp (by decide)
  · intro _
    refine ⟨hc, ?_⟩
    rw [h2, hlf]

/-! ### Theorems for the claims -/

/-- C4: if reading or JSON-decoding the scraper output fails at any point
during import (for example, the file contains malformed JSON), the job is
marked Failed and the leads table is untouched — with no lead rows for the
job beforehand, zero lead rows for it exist afterwards. -/
theorem processScraperOutput_read_failure (dbSt : DB) (sid : String)
    (file : ScraperFile) (freshIds : List String) (commitOk : Bool)
    (msg : String) (r : SearchRow)
    (hread : readScraperFile file = .error msg)
    (hfind : findSearch dbSt.searches sid = some r)
    (hcnt : countLeadsFor dbSt sid = 0) :
    statusOf (processScraperOutput dbSt sid file freshIds commitOk) sid
        = some "Failed" ∧
    (processScraperOutput dbSt sid file freshIds commitOk).leads = dbSt.leads ∧
    countLeadsFor (processScraperOutput dbSt sid file freshIds commitOk) sid
        = 0 := by
  have hproc : processScraperOutput dbSt sid file freshIds commitOk
      = updateSearchStatus dbSt sid "Failed" := by
    unfold processScraperOutput
    rw [hread]
  obtain ⟨h1, _, h3, _⟩ := updateSearchStatus_facts dbSt sid "Failed" r hfind
  rw [hproc]
  refine ⟨h1, h3, ?_⟩
  unfold countLeadsFor leadsFor
  rw [h3]
  exact hcnt

/-- Witness for C4 at a concrete input: an output file whose content is
not valid JSON. -/
theorem processScraperOutput_read_failure_witness :
    statusOf (processScraperOutput dbOneSearch "s1"
        (.stream [] true) [] true) "s1" = some "Failed" ∧
    (processScraperOutput dbOneSearch "s1" (.stream [] true) [] true).leads
        = dbOneSearch.leads ∧
    countLeadsFor (processScraperOutput dbOneSearch "s1"
        (.stream [] true) [] true) "s1" = 0 :=
  processScraperOutput_read_failure dbOneSearch "s1" (.stream [] true) [] true
    "invalid character" (insertedSearchRow "s1" 1 "plumbers in london")
    rfl rfl rfl

/-- C1 (counterexample): a job whose scraper command fails reaches the
terminal status Failed with zero Lead rows and leads_found 0, so its
leads_found equals the number of Lead rows referencing it even though its
status is not Completed — refuting the claimed biconditional (its "if"
direction). -/
theorem terminal_status_iff_counterexample :
    statusOf (searchLifecycle ⟨[], [], []⟩ 1 "k" "s1"
        .cmdError [] true) "s1" = some "Failed" ∧
    leadsFoundOf (searchLifecycle ⟨[], [], []⟩ 1 "k" "s1"
        .cmdError [] true) "s1"
      = some (countLeadsFor (searchLifecycle ⟨[], [], []⟩ 1 "k" "s1"
          .cmdError [] true) "s1") ∧
    statusOf (searchLifecycle ⟨[], [], []⟩ 1 "k" "s1"
        .cmdError [] true) "s1" ≠ some "Completed" :=
  ⟨rfl, rfl, by decide⟩

/-- C1 (amended): for every search job run end-to-end from a state where
its id is fresh and no Lead rows reference it, the terminal state
satisfies: if the status is Completed then leads_found equals the number
of Lead rows referencing the job, and every job in status Failed has zero
Lead rows and leads_found equal to zero. -/
theorem searchLifecycle_terminal_invariant (db0 : DB) (uid : Int)
    (kw sid : String) (run : ScraperRun) (freshIds : List String)
    (commitOk : Bool) (hkw : (kw == "") = false)
    (hfresh : ∀ s ∈ db0.searches, (s.id == sid) = false)
    (hnolead : countLeadsFor db0 sid = 0) :
    (statusOf (searchLifecycle db0 uid kw sid run freshIds commitOk) sid
        = some "Completed" →
      leadsFoundOf (searchLifecycle db0 uid kw sid run freshIds commitOk) sid
        = some (countLeadsFor
            (searchLifecycle db0 uid kw sid run freshIds commitOk) sid)) ∧
    (statusOf (searchLifecycle db0 uid kw sid run freshIds commitOk) sid
        = some "Failed" →
      countLeadsFor (searchLifecycle db0 uid kw sid run freshIds commitOk) sid
          = 0 ∧
      leadsFoundOf (searchLifecycle db0 uid kw sid run freshIds commitOk) sid
          = some 0) := by
  have hany : db0.searches.any (fun s => s.id == sid) = false := by
    rw [List.any_eq_false]
    intro x hx
    simp [hfresh x hx]
  have hstart : searchLifecycle db0 uid kw sid run freshIds commitOk
      = runScraper
          { db0 with searches := db0.searches ++ [insertedSearchRow sid uid kw] }
          sid run freshIds commitOk := by
    unfold searchLifecycle startSearch
    rw [if_neg (by simp [hkw]), if_neg (by simp [hany])]
  rw [hstart]
  set db1 : DB :=
    { db0 with searches := db0.searches ++ [insertedSearchRow sid uid kw] }
    with hdb1
  have hfind1 : findSearch db1.searches sid = some (insertedSearchRow sid uid kw) := by
    show findSearch (db0.searches ++ [insertedSearchRow sid uid kw]) sid = _
    unfold findSearch
    rw [find?_append_of_forall_false _ _ _ hfresh]
    exact List.find?_cons_of_pos [] (beq_self_eq_true sid)
  have hcnt1 : countLeadsFor db1 sid = 0 := hnolead
  cases run with
  | tmpFileError =>
    exact updateFailed_invariant db1 sid (insertedSearchRow sid uid kw)
      hfind1 rfl hcnt1
  | cmdError =>
    exact updateFailed_invariant db1 sid (insertedSearchRow sid uid kw)
      hfind1 rfl hcnt1
  | output f =>
    have hrs : runScraper db1 sid (.output f) freshIds commitOk
        = processScraperOutput db1 sid f freshIds commitOk := rfl
    rw [hrs]
    cases hread : readScraperFile f with
    | error msg =>
      have hproc : processScraperOutput db1 sid f freshIds commitOk
          = updateSearchStatus db1 sid "Failed" := by
        unfold processScraperOutput
        rw [hread]
      rw [hproc]
      exact updateFailed_invariant db1 sid (insertedSearchRow sid uid kw)
        hfind1 rfl hcnt1
    | ok sls =>
      have hproc : processScraperOutput db1 sid f freshIds commitOk
          = importLeads db1 sid sls freshIds commitOk := by
        unfold processScraperOutput
        rw [hread]
      rw [hproc]
      cases hins : insertLeadsTx db1.leads sid sls freshIds with
      | none =>
        have himp : importLeads db1 sid sls freshIds commitOk
            = updateSearchStatus db1 sid "Failed" := by
          unfold importLeads
          rw [hins]
        rw [himp]
        exact updateFailed_invariant db1 sid (insertedSearchRow sid uid kw)
          hfind1 rfl hcnt1
      | some tbl =>
        cases commitOk with
        | false =>
          have himp : importLeads db1 sid sls freshIds false
              = updateSearchStatus db1 sid "Failed" := by
            unfold importLeads
            rw [hins]
            rfl
          rw [himp]
          exact updateFailed_invariant db1 sid (insertedSearchRow sid uid kw)
            hfind1 rfl hcnt1
        | true =>
          have himp : importLeads db1 sid sls freshIds true
              = completeSearch db1 sid sls.length tbl := by
            unfold importLeads
            rw [hins]
            rfl
          rw [himp]
          have hfindC := findSearch_completeSearch db1 sid sls.length tbl
            (insertedSearchRow sid uid kw) hfind1
          have hstat : statusOf (completeSearch db1 sid sls.length tbl) sid
              = some "Completed" := by
            unfold statusOf
            rw [hfindC]
            rfl
          have hlfC : leadsFoundOf (completeSearch db1 sid sls.length tbl) sid
              = some sls.length := by
            unfold leadsFoundOf
            rw [hfindC]
            rfl
          have hcount : countLeadsFor (completeSearch db1 sid sls.length tbl) sid
              = sls.length := by
            obtain ⟨new, hnew, hlen, hmem⟩ :=
              insertLeadsTx_spec sid sls db1.leads tbl freshIds hins
            have h0 : (db1.leads.filter (fun l => l.search_id == sid)).length
                = 0 := hcnt1
            have hnewfil : new.filter (fun l => l.search_id == sid) = new := by
              rw [List.filter_eq_self]
              intro a ha
              simp [hmem a ha]
            unfold countLeadsFor leadsFor
            show (tbl.filter (fun l => l.search_id == sid)).length = sls.length
            rw [hnew, List.filter_append, List.length_append, h0, hnewfil,
                hlen, Nat.zero_add]
          constructor
          · intro _
            rw [hlfC, hcount]
          · intro hfail
            rw [hstat] at hfail
            exact absurd hfail (by decide)

/-- Witness for C1 (amended) at a concrete input: a successful
one-lead import from an empty store. -/
theorem searchLifecycle_terminal_invariant_witness :
    (statusOf (searchLifecycle ⟨[], [], []⟩ 1 "plumbers in london" "s1"
        (.output (.stream [acmeJson] false)) ["L1"] true) "s1"
        = some "Completed" →
      leadsFoundOf (searchLifecycle ⟨[], [], []⟩ 1 "plumbers in london" "s1"
        (.output (.stream [acmeJson] false)) ["L1"] true) "s1"
        = some (countLeadsFor (searchLifecycle ⟨[], [], []⟩ 1
            "plumbers in london" "s1"
            (.output (.stream [acmeJson] false)) ["L1"] true) "s1")) ∧
    (statusOf (searchLifecycle ⟨[], [], []⟩ 1 "plumbers in london" "s1"
        (.output (.stream [acmeJson] false)) ["L1"] true) "s1"
        = some "Failed" →
      countLeadsFor (searchLifecycle ⟨[], [], []⟩ 1 "plumbers in london" "s1"
        (.output (.stream [acmeJson] false)) ["L1"] true) "s1" = 0 ∧
      leadsFoundOf (searchLifecycle ⟨[], [], []⟩ 1 "plumbers in london" "s1"
        (.output (.stream [acmeJson] false)) ["L1"] true) "s1" = some 0) :=
  searchLifecycle_terminal_invariant ⟨[], [], []⟩ 1 "plumbers in london" "s1"
    (.output (.stream [acmeJson] false)) ["L1"] true (by decide)
    (fun s hs => absurd hs (List.not_mem_nil s)) rfl

/-- C3 (counterexample): on an empty store, creating a search job with a
valid keyword returns a job record whose status is the string
"In Progress", and inserts a row with that status — not "Pending" as the
claim states. -/
theorem startSearch_status_not_pending :
    ((startSearch ⟨[], [], []⟩ 1 "plumbers in london" "job-1").toOption.map
        (fun p => p.2.Status)) = some "In Progress" ∧
    statusOf (((startSearch ⟨[], [], []⟩ 1 "plumbers in london" "job-1").toOption.map
        Prod.fst).getD ⟨[], [], []⟩) "job-1" = some "In Progress" ∧
    ("In Progress" : String) ≠ "Pending" := by
  refine ⟨rfl, rfl, by decide⟩

/-- C3 (amended): for every create-search-job request with a valid
credential and a present keyword whose fresh uuid does not collide, the
handler inserts a Search Job row whose status is "In Progress" (the code's
name for the initial, pending state) and whose found-count is 0, and the
immediate Accepted response carries that job record with status
"In Progress" and the fresh identifier. -/
theorem startSearch_creates_in_progress_job (dbSt : DB) (uid : Int)
    (kw sid : String) (hkw : (kw == "") = false)
    (hfresh : ∀ s ∈ dbSt.searches, (s.id == sid) = false) :
    ∃ db' resp, startSearch dbSt uid kw sid = .ok (db', resp) ∧
      resp.ID = sid ∧ resp.Status = "In Progress" ∧ resp.LeadsFound = 0 ∧
      resp.UserID = uid ∧ resp.Keyword = kw ∧
      statusOf db' sid = some "In Progress" ∧ leadsFoundOf db' sid = some 0 ∧
      db'.leads = dbSt.leads ∧ db'.crm_leads = dbSt.crm_leads := by
  have hany : dbSt.searches.any (fun s => s.id == sid) = false := by
    rw [List.any_eq_false]
    intro x hx
    simp [hfresh x hx]
  have hrow : findSearch (dbSt.searches ++ [insertedSearchRow sid uid kw]) sid
      = some (insertedSearchRow sid uid kw) := by
    unfold findSearch
    rw [find?_append_of_forall_false _ _ _ hfresh]
    exact List.find?_cons_of_pos [] (beq_self_eq_true sid)
  refine ⟨{ dbSt with searches := dbSt.searches ++ [insertedSearchRow sid uid kw] },
    newSearchRecord sid uid kw,
    ?_, rfl, rfl, rfl, rfl, rfl, ?_, ?_, rfl, rfl⟩
  · unfold startSearch
    rw [if_neg (by simp [hkw]), if_neg (by simp [hany])]
  · simp only [statusOf]
    rw [hrow]
    rfl
  · simp only [leadsFoundOf]
    rw [hrow]
    rfl

/-- Witness for C3 (amended) at a concrete input. -/
theorem startSearch_creates_in_progress_job_witness :
    ∃ db' resp,
      startSearch ⟨[], [], []⟩ 5 "plumbers in london" "job-1" = .ok (db', resp) ∧
      resp.ID = "job-1" ∧ resp.Status = "In Progress" ∧ resp.LeadsFound = 0 ∧
      resp.UserID = 5 ∧ resp.Keyword = "plumbers in london" ∧
      statusOf db' "job-1" = some "In Progress" ∧
      leadsFoundOf db' "job-1" = some 0 ∧
      db'.leads = ([] : List LeadRow) ∧ db'.crm_leads = ([] : List CrmRow) :=
  startSearch_creates_in_progress_job ⟨[], [], []⟩ 5 "plumbers in london" "job-1"
    (by decide) (by intro s hs; exact absurd hs (List.not_mem_nil s))

/-- C5: a request to list the leads of a search job owned by a different
user returns the "Access denied" error and none of the job's lead data. -/
theorem getLeadsForSearch_other_owner_denied (dbSt : DB) (uid : Int)
    (sid : String) (r : SearchRow)
    (hfind : findSearch dbSt.searches sid = some r)
    (howner : r.user_id ≠ uid) :
    getLeadsForSearch dbSt uid sid = .error "Access denied" := by
  simp [getLeadsForSearch, hfind, howner]

/-- Witness for C5 at a concrete input: user 1 asks for user 2's job. -/
theorem getLeadsForSearch_other_owner_denied_witness :
    getLeadsForSearch dbUserTwoSearch 1 "s1" = .error "Access denied" :=
  getLeadsForSearch_other_owner_denied dbUserTwoSearch 1 "s1"
    (insertedSearchRow "s1" 2 "k") rfl (by decide)

/-- C10: requesting the leads of a search id with no Search Job row
returns the very same "Access denied" error value as an ownership
mismatch (the handler folds the not-found case into the forbidden
response), so a nonexistent job is indistinguishable from another
user's job. -/
theorem getLeadsForSearch_missing_job_denied (dbSt : DB) (uid : Int)
    (sid : String) (hfind : findSearch dbSt.searches sid = none) :
    getLeadsForSearch dbSt uid sid = .error "Access denied" := by
  unfold getLeadsForSearch
  rw [hfind]

/-- Witness for C10 at a concrete input. -/
theorem getLeadsForSearch_missing_job_denied_witness :
    getLeadsForSearch ⟨[], [], []⟩ 1 "ghost" = .error "Access denied" :=
  getLeadsForSearch_missing_job_denied ⟨[], [], []⟩ 1 "ghost" rfl

/-- After one bulk-add step the (user, lead) key is present. -/
theorem crmAddStep_key_present (uid : Int) (tbl : List CrmRow) (l : Lead) :
    (crmAddStep uid tbl l).any
      (fun r => r.user_id == uid && r.lead_id == l.ID) = true := by
  unfold crmAddStep
  by_cases h : tbl.any (fun r => r.user_id == uid && r.lead_id == l.ID) = true
  · simp [h]
  · rw [if_neg h, List.any_append]
    simp [mkCrmRow]

/-- The bulk-add fold only appends rows, so any key present stays present. -/
theorem foldl_crmAddStep_any_mono (uid : Int) (p : CrmRow → Bool)
    (ls : List Lead) (tbl : List CrmRow) (h : tbl.any p = true) :
    (ls.foldl (crmAddStep uid) tbl).any p = true := by
  induction ls generalizing tbl with
  | nil => exact h
  | cons l ls ih =>
    rw [List.foldl_cons]
    apply ih
    unfold crmAddStep
    by_cases hc : tbl.any (fun r => r.user_id == uid && r.lead_id == l.ID) = true
    · rw [if_pos hc]
      exact h
    · rw [if_neg hc, List.any_append, h]
      rfl

/-- After the bulk-add fold, every added lead's key is present. -/
theorem foldl_crmAddStep_all_present (uid : Int) (ls : List Lead)
    (tbl : List CrmRow) :
    ∀ l ∈ ls, (ls.foldl (crmAddStep uid) tbl).any
      (fun r => r.user_id == uid && r.lead_id == l.ID) = true := by
  induction ls generalizing tbl with
  | nil => intro l hl; exact absurd hl (List.not_mem_nil l)
  | cons a ls ih =>
    intro l hl
    rw [List.foldl_cons]
    rcases List.mem_cons.mp hl with rfl | hl
    · exact foldl_crmAddStep_any_mono uid _ ls _ (crmAddStep_key_present uid tbl l)
    · exact ih _ l hl

/-- The bulk-add fold is the identity when every key is already present
(conflict-ignore leaves every existing entry untouched). -/
theorem foldl_crmAddStep_of_all_present (uid : Int) (ls : List Lead)
    (tbl : List CrmRow)
    (h : ∀ l ∈ ls, tbl.any (fun r => r.user_id == uid && r.lead_id == l.ID) = true) :
    ls.foldl (crmAddStep uid) tbl = tbl := by
  induction ls with
  | nil => rfl
  | cons a ls ih =>
    rw [List.foldl_cons]
    have hstep : crmAddStep uid tbl a = tbl := by
      unfold crmAddStep
      rw [if_pos (h a (List.mem_cons_self a ls))]
    rw [hstep]
    exact ih (fun l hl => h l (List.mem_cons_of_mem a hl))

/-- C6: bulk-adding the same leads to a user's CRM a second time is a
no-op — every (user, lead) entry created by the first add keeps its
column, notes, call count and snapshot fields exactly (conflict-ignore,
first-add wins), and the whole store is unchanged by the re-add. -/
theorem addLeadsToCrm_idempotent (dbSt : DB) (uid : Int) (ls : List Lead) :
    addLeadsToCrm (addLeadsToCrm dbSt uid ls) uid ls = addLeadsToCrm dbSt uid ls := by
  unfold addLeadsToCrm
  rw [foldl_crmAddStep_of_all_present uid ls _
    (foldl_crmAddStep_all_present uid ls dbSt.crm_leads)]

/-- C7: for an existing CRM entry of the calling user, setting its notes,
call count and callback date via the field-update operation and then
fetching the CRM board returns those three values unchanged. -/
theorem updateCrmLead_roundtrip (dbSt : DB) (uid : Int) (lid : String)
    (p : CrmLead) (r : CrmRow) (hr : r ∈ dbSt.crm_leads)
    (hu : r.user_id = uid) (hl : r.lead_id = lid) :
    (getCrmLeadById (updateCrmLead dbSt uid lid p) uid lid).map
      (fun v => (v.Notes, v.TimesCalled, v.CallBackDate))
      = some (p.Notes, p.TimesCalled, p.CallBackDate) := by
  have hcond : (r.user_id == uid && r.lead_id == lid) = true := by
    simp [hu, hl]
  have hmem1 : crmFieldPatch p r ∈ (updateCrmLead dbSt uid lid p).crm_leads := by
    show crmFieldPatch p r ∈ dbSt.crm_leads.map (fun s =>
      if s.user_id == uid && s.lead_id == lid then crmFieldPatch p s else s)
    have hm := List.mem_map_of_mem (fun s =>
      if s.user_id == uid && s.lead_id == lid then crmFieldPatch p s else s) hr
    simpa [hcond] using hm
  have hmem2 : crmFieldPatch p r ∈
      (getCrmRows (updateCrmLead dbSt uid lid p) uid).reverse := by
    rw [List.mem_reverse, getCrmRows, List.mem_filter]
    exact ⟨hmem1, by simp [crmFieldPatch, hu]⟩
  have hsome : (List.find? (fun s => s.lead_id == lid)
      ((getCrmRows (updateCrmLead dbSt uid lid p) uid).reverse)).isSome := by
    rw [List.find?_isSome]
    exact ⟨crmFieldPatch p r, hmem2, by simp [crmFieldPatch, hl]⟩
  obtain ⟨w, hw⟩ := Option.isSome_iff_exists.mp hsome
  have hwmem : w ∈ (getCrmRows (updateCrmLead dbSt uid lid p) uid).reverse :=
    List.mem_of_find?_eq_some hw
  have hwlid : (w.lead_id == lid) = true :=
    List.find?_some (p := fun (s : CrmRow) => s.lead_id == lid) hw
  have hwuid : (w.user_id == uid) = true := by
    have hm := (List.mem_filter.mp (List.mem_reverse.mp hwmem)).2
    simpa using hm
  have hwmap : w ∈ dbSt.crm_leads.map (fun s =>
      if s.user_id == uid && s.lead_id == lid then crmFieldPatch p s else s) :=
    (List.mem_filter.mp (List.mem_reverse.mp hwmem)).1
  obtain ⟨x, hx, hfx⟩ := List.mem_map.mp hwmap
  have hwfields : w.notes = some p.Notes ∧ w.times_called = p.TimesCalled ∧
      w.callback_date = p.CallBackDate := by
    by_cases hc : (x.user_id == uid && x.lead_id == lid) = true
    · rw [if_pos hc] at hfx
      refine ⟨?_, ?_, ?_⟩ <;> rw [← hfx] <;> rfl
    · rw [if_neg hc] at hfx
      exfalso
      apply hc
      rw [hfx]
      simp only [Bool.and_eq_true]
      exact ⟨hwuid, hwlid⟩
  unfold getCrmLeadById
  rw [hw]
  simp [crmRowToView, hwfields.1, hwfields.2.1, hwfields.2.2]

/-- Witness for C7 at a concrete input. -/
theorem updateCrmLead_roundtrip_witness :
    (getCrmLeadById (updateCrmLead dbOneCrm 1 "L1" crmPayloadEx) 1 "L1").map
      (fun v => (v.Notes, v.TimesCalled, v.CallBackDate))
      = some (crmPayloadEx.Notes, crmPayloadEx.TimesCalled,
              crmPayloadEx.CallBackDate) :=
  updateCrmLead_roundtrip dbOneCrm 1 "L1" crmPayloadEx crmRowEx
    (by decide) rfl rfl

/-- C8: the CRM field-update operation writes only notes, times_called and
callback_date of the caller's row for the given lead id; the row's key,
column id and contact snapshot are unchanged, every non-matching row is
wholly unchanged, and the other tables are untouched. -/
theorem updateCrmLead_frame (dbSt : DB) (uid : Int) (lid : String) (p : CrmLead) :
    (updateCrmLead dbSt uid lid p).searches = dbSt.searches ∧
    (updateCrmLead dbSt uid lid p).leads = dbSt.leads ∧
    (updateCrmLead dbSt uid lid p).crm_leads.length = dbSt.crm_leads.length ∧
    ∀ i : Nat, ∀ r : CrmRow, dbSt.crm_leads[i]? = some r →
      ∃ r', (updateCrmLead dbSt uid lid p).crm_leads[i]? = some r' ∧
        r'.user_id = r.user_id ∧ r'.lead_id = r.lead_id ∧
        r'.column_id = r.column_id ∧ r'.company_name = r.company_name ∧
        r'.phone = r.phone ∧ r'.website = r.website ∧ r'.email = r.email ∧
        r'.page_speed = r.page_speed ∧
        (¬(r.user_id = uid ∧ r.lead_id = lid) → r' = r) ∧
        (r.user_id = uid → r.lead_id = lid →
          r'.notes = some p.Notes ∧ r'.times_called = p.TimesCalled ∧
          r'.callback_date = p.CallBackDate) := by
  refine ⟨rfl, rfl, by simp [updateCrmLead], ?_⟩
  intro i r hi
  have hmap : (updateCrmLead dbSt uid lid p).crm_leads[i]? =
      some (if r.user_id == uid && r.lead_id == lid then crmFieldPatch p r
            else r) := by
    show (dbSt.crm_leads.map (fun s =>
      if s.user_id == uid && s.lead_id == lid then crmFieldPatch p s else s))[i]?
      = _
    rw [List.getElem?_map, hi]
    rfl
  by_cases hc : (r.user_id == uid && r.lead_id == lid) = true
  · rw [if_pos hc] at hmap
    have hcp : r.user_id = uid ∧ r.lead_id = lid := by
      simpa [Bool.and_eq_true] using hc
    exact ⟨crmFieldPatch p r, hmap, rfl, rfl, rfl, rfl, rfl, rfl, rfl, rfl,
      fun h => absurd hcp h, fun _ _ => ⟨rfl, rfl, rfl⟩⟩
  · rw [if_neg hc] at hmap
    refine ⟨r, hmap, rfl, rfl, rfl, rfl, rfl, rfl, rfl, rfl, fun _ => rfl, ?_⟩
    intro h1 h2
    exact absurd (by simp [h1, h2]) hc

/-- Witness for C8 at a concrete input: the single row of `dbOneCrm`. -/
theorem updateCrmLead_frame_witness :
    ∃ r', (updateCrmLead dbOneCrm 1 "L1" crmPayloadEx).crm_leads[0]? = some r' ∧
      r'.user_id = crmRowEx.user_id ∧ r'.lead_id = crmRowEx.lead_id ∧
      r'.column_id = crmRowEx.column_id ∧
      r'.company_name = crmRowEx.company_name ∧
      r'.phone = crmRowEx.phone ∧ r'.website = crmRowEx.website ∧
      r'.email = crmRowEx.email ∧ r'.page_speed = crmRowEx.page_speed ∧
      (¬(crmRowEx.user_id = 1 ∧ crmRowEx.lead_id = "L1") → r' = crmRowEx) ∧
      (crmRowEx.user_id = 1 → crmRowEx.lead_id = "L1" →
        r'.notes = some crmPayloadEx.Notes ∧
        r'.times_called = crmPayloadEx.TimesCalled ∧
        r'.callback_date = crmPayloadEx.CallBackDate) :=
  (updateCrmLead_frame dbOneCrm 1 "L1" crmPayloadEx).2.2.2 0 crmRowEx rfl

/-- C9: the CRM move operation, for an arbitrary target column id string
(no validation against the enumerated column set), writes only the
column_id of the caller's row for the given lead id; every other field of
that row, every non-matching row, and the other tables are unchanged. -/
theorem updateCrmState_frame (dbSt : DB) (uid : Int) (lid newCol : String) :
    (updateCrmState dbSt uid lid newCol).searches = dbSt.searches ∧
    (updateCrmState dbSt uid lid newCol).leads = dbSt.leads ∧
    (updateCrmState dbSt uid lid newCol).crm_leads.length
      = dbSt.crm_leads.length ∧
    ∀ i : Nat, ∀ r : CrmRow, dbSt.crm_leads[i]? = some r →
      ∃ r', (updateCrmState dbSt uid lid newCol).crm_leads[i]? = some r' ∧
        r'.user_id = r.user_id ∧ r'.lead_id = r.lead_id ∧
        r'.notes = r.notes ∧ r'.times_called = r.times_called ∧
        r'.callback_date = r.callback_date ∧
        r'.company_name = r.company_name ∧ r'.phone = r.phone ∧
        r'.website = r.website ∧ r'.email = r.email ∧
        r'.page_speed = r.page_speed ∧
        (¬(r.user_id = uid ∧ r.lead_id = lid) → r' = r) ∧
        (r.user_id = uid → r.lead_id = lid → r'.column_id = newCol) := by
  refine ⟨rfl, rfl, by simp [updateCrmState], ?_⟩
  intro i r hi
  have hmap : (updateCrmState dbSt uid lid newCol).crm_leads[i]? =
      some (if r.user_id == uid && r.lead_id == lid then
              { r with column_id := newCol }
            else r) := by
    show (dbSt.crm_leads.map (fun s =>
      if s.user_id == uid && s.lead_id == lid then
        { s with column_id := newCol }
      else s))[i]? = _
    rw [List.getElem?_map, hi]
    rfl
  by_cases hc : (r.user_id == uid && r.lead_id == lid) = true
  · rw [if_pos hc] at hmap
    have hcp : r.user_id = uid ∧ r.lead_id = lid := by
      simpa [Bool.and_eq_true] using hc
    exact ⟨{ r with column_id := newCol }, hmap, rfl, rfl, rfl, rfl, rfl, rfl,
      rfl, rfl, rfl, rfl, fun h => absurd hcp h, fun _ _ => rfl⟩
  · rw [if_neg hc] at hmap
    refine ⟨r, hmap, rfl, rfl, rfl, rfl, rfl, rfl, rfl, rfl, rfl, rfl,
      fun _ => rfl, ?_⟩
    intro h1 h2
    exact absurd (by simp [h1, h2]) hc

/-- Witness for C9 at a concrete input: moving the single row of
`dbOneCrm` to a column id outside the enumerated board set. -/
theorem updateCrmState_frame_witness :
    ∃ r', (updateCrmState dbOneCrm 1 "L1" "no-such-column").crm_leads[0]?
        = some r' ∧
      r'.user_id = crmRowEx.user_id ∧ r'.lead_id = crmRowEx.lead_id ∧
      r'.notes = crmRowEx.notes ∧ r'.times_called = crmRowEx.times_called ∧
      r'.callback_date = crmRowEx.callback_date ∧
      r'.company_name = crmRowEx.company_name ∧ r'.phone = crmRowEx.phone ∧
      r'.website = crmRowEx.website ∧ r'.email = crmRowEx.email ∧
      r'.page_speed = crmRowEx.page_speed ∧
      (¬(crmRowEx.user_id = 1 ∧ crmRowEx.lead_id = "L1") → r' = crmRowEx) ∧
      (crmRowEx.user_id = 1 → crmRowEx.lead_id = "L1" →
        r'.column_id = "no-such-column") :=
  (updateCrmState_frame dbOneCrm 1 "L1" "no-such-column").2.2.2 0 crmRowEx rfl

/-- C2 (counterexample): on a store holding one fresh job, an output file
containing the one-element JSON ARRAY `[{"title":"Acme",...}]` is not
imported: the streaming decoder cannot unmarshal an array into the
`ScrapedLead` struct, so the job ends Failed with zero Lead rows — not
Completed with one lead as the claim states. -/
theorem import_array_output_counterexample :
    statusOf (processScraperOutput dbOneSearch "s1"
        (.stream [Json.arr [acmeJson]] false) ["L1"] true) "s1"
      = some "Failed" ∧
    leadsFor (processScraperOutput dbOneSearch "s1"
        (.stream [Json.arr [acmeJson]] false) ["L1"] true) "s1" = [] ∧
    statusOf (processScraperOutput dbOneSearch "s1"
        (.stream [Json.arr [acmeJson]] false) ["L1"] true) "s1"
      ≠ some "Completed" :=
  ⟨rfl, rfl, by decide⟩

/-- C2 (amended): the Result Importer decodes the output file as a stream
of JSON objects, not as a JSON array.  For the stream containing the one
object `{"title":"Acme","phone":"555","web_site":"acme.com","emails":
["a@acme.com"]}`, the import commits exactly one Lead row with email
"a@acme.com" and sets the job to Completed with leads_found 1; the same
data framed as a one-element JSON array fails to decode, and the job ends
Failed with zero Lead rows. -/
theorem import_stream_object_vs_array (dbSt : DB) (sid fid : String)
    (r : SearchRow) (hfind : findSearch dbSt.searches sid = some r)
    (hnolead : leadsFor dbSt sid = [])
    (hfid : dbSt.leads.any (fun l => l.id == fid) = false) :
    (statusOf (processScraperOutput dbSt sid
          (.stream [acmeJson] false) [fid] true) sid = some "Completed" ∧
      leadsFoundOf (processScraperOutput dbSt sid
          (.stream [acmeJson] false) [fid] true) sid = some 1 ∧
      leadsFor (processScraperOutput dbSt sid
          (.stream [acmeJson] false) [fid] true) sid = [acmeLeadRow fid sid]) ∧
    (statusOf (processScraperOutput dbSt sid
          (.stream [Json.arr [acmeJson]] false) [fid] true) sid = some "Failed" ∧
      leadsFor (processScraperOutput dbSt sid
          (.stream [Json.arr [acmeJson]] false) [fid] true) sid = []) := by
  have hdecode : readScraperFile (.stream [acmeJson] false)
      = .ok [acmeScrapedLead] := rfl
  have hins : insertLeadsTx dbSt.leads sid [acmeScrapedLead] [fid]
      = some (dbSt.leads ++ [acmeLeadRow fid sid]) := by
    unfold insertLeadsTx
    rw [if_neg (by simp [hfid])]
    unfold insertLeadsTx
    rfl
  have hproc1 : processScraperOutput dbSt sid
      (.stream [acmeJson] false) [fid] true
      = completeSearch dbSt sid 1 (dbSt.leads ++ [acmeLeadRow fid sid]) := by
    unfold processScraperOutput
    rw [hdecode]
    show importLeads dbSt sid [acmeScrapedLead] [fid] true = _
    unfold importLeads
    rw [hins]
    rfl
  have hfindC := findSearch_completeSearch dbSt sid 1
    (dbSt.leads ++ [acmeLeadRow fid sid]) r hfind
  have hleads1 : leadsFor (completeSearch dbSt sid 1
      (dbSt.leads ++ [acmeLeadRow fid sid])) sid = [acmeLeadRow fid sid] := by
    unfold leadsFor
    show ((dbSt.leads ++ [acmeLeadRow fid sid]).filter
      (fun l => l.search_id == sid)) = _
    rw [List.filter_append]
    have h1 : dbSt.leads.filter (fun l => l.search_id == sid) = [] := hnolead
    rw [h1]
    simp [acmeLeadRow]
  have hdecode2 : readScraperFile (.stream [Json.arr [acmeJson]] false)
      = .error "json: cannot unmarshal value into Go value of type main.ScrapedLead" :=
    rfl
  have hproc2 : processScraperOutput dbSt sid
      (.stream [Json.arr [acmeJson]] false) [fid] true
      = updateSearchStatus dbSt sid "Failed" := by
    unfold processScraperOutput
    rw [hdecode2]
  obtain ⟨hs2, _, hl2, _⟩ := updateSearchStatus_facts dbSt sid "Failed" r hfind
  refine ⟨⟨?_, ?_, ?_⟩, ?_, ?_⟩
  · rw [hproc1]
    unfold statusOf
    rw [hfindC]
    rfl
  · rw [hproc1]
    unfold leadsFoundOf
    rw [hfindC]
    rfl
  · rw [hproc1]
    exact hleads1
  · rw [hproc2]
    exact hs2
  · rw [hproc2]
    unfold leadsFor
    show (updateSearchStatus dbSt sid "Failed").leads.filter
      (fun l => l.search_id == sid) = []
    rw [hl2]
    exact hnolead

/-- Witness for C2 (amended) at a concrete input. -/
theorem import_stream_object_vs_array_witness :
    (statusOf (processScraperOutput dbOneSearch "s1"
          (.stream [acmeJson] false) ["L1"] true) "s1" = some "Completed" ∧
      leadsFoundOf (processScraperOutput dbOneSearch "s1"
          (.stream [acmeJson] false) ["L1"] true) "s1" = some 1 ∧
      leadsFor (processScraperOutput dbOneSearch "s1"
          (.stream [acmeJson] false) ["L1"] true) "s1"
        = [acmeLeadRow "L1" "s1"]) ∧
    (statusOf (processScraperOutput dbOneSearch "s1"
          (.stream [Json.arr [acmeJson]] false) ["L1"] true) "s1"
        = some "Failed" ∧
      leadsFor (processScraperOutput dbOneSearch "s1"
          (.stream [Json.arr [acmeJson]] false) ["L1"] true) "s1" = []) :=
  import_stream_object_vs_array dbOneSearch "s1" "L1"
    (insertedSearchRow "s1" 1 "plumbers in london") rfl rfl rfl

end ColdCall
